import Mathlib

/-!
# Verification of the rumah123 housing-data harvesting pipeline

Shallow embedding of the pipeline's core logic:

* `src/processing/jobs/data_cleaning.py` (class `DataCleaner`): value coercion
  (`clean_price`, `clean_numeric`, `clean_string`), schema-checked batch
  cleaning (`clean_rumah123_data`, `clean_osm_facilities_data`) and the
  per-page orchestration with progress advancement (`process_current_page`).
* `src/scripts/scraper/rumah123_scraper.py` (class `Rumah123Scraper`): dedup
  loading (`fetch_existing_titles`), index-page scraping
  (`scrape_search_page`), storage (`store_to_mongodb`), progress
  (`load_progress`, `update_progress`) and the `run` loop.
* `src/scripts/api/fetch_facilities.py` (class `OSMFacilitiesFetcher`): the
  retrying Overpass client (`get_facilities_count`), region selection
  (`get_current_kecamatans`) and the `run` loop.

Modelling conventions:

* MongoDB documents are association lists `Doc = List (String × Value)`;
  collections are `List Doc` in insertion order.
* Python runtime values flowing through pandas cells are the inductive
  `Value` (`null` for Python `None`, `nan` for pandas NaN, strings,
  integers, and floats modelled exactly as decimals `num / 10 ^ exp`; the
  inputs the pipeline feeds these functions are short decimal literals,
  where the exact-decimal model agrees with IEEE doubles).
* Network and storage effects are oracles passed in explicitly: a response
  stream for the Overpass client, fetch results for HTML pages, and boolean
  reachability flags for the stores.  Wall-clock timestamps
  (`waktu_scraping`, `inserted_at`, `timestamp`, `updated_at`) are not
  modelled; `time.sleep` calls are recorded as data.
* Python exceptions are modelled with `Option`/`Except`; a bare
  `try/except` that returns a default becomes the corresponding total
  function.
-/

namespace Housing

/-- A Python float, modelled as the exact decimal `num / 10 ^ exp`.  The
pipeline's float values are short decimal literals scraped from pages, for
which this model agrees with IEEE doubles. -/
structure PyFloat where
  num : Int
  exp : Nat
deriving Repr, DecidableEq

/-- `int(f)` on a float: truncation toward zero. -/
def PyFloat.trunc (f : PyFloat) : Int :=
  f.num.tdiv ((10 : Int) ^ f.exp)

/-- Left-pad a digit string with zeros up to width `w`. -/
def padZeros (s : String) (w : Nat) : String :=
  String.mk (List.replicate (w - s.length) '0') ++ s

/-- `str(f)` on a float: decimal rendering (Python's shortest-repr trimming
of trailing zeros is not modelled; no claim depends on it). -/
def PyFloat.render (f : PyFloat) : String :=
  if f.exp = 0 then toString f.num ++ ".0"
  else
    let a := f.num.natAbs
    let hi := a / 10 ^ f.exp
    let lo := a % 10 ^ f.exp
    (if f.num < 0 then "-" else "") ++ toString hi ++ "." ++
      padZeros (toString lo) f.exp

/-- A Python runtime value as it appears in a pandas cell / Mongo field. -/
inductive Value where
  | null : Value
  | nan : Value
  | str : String → Value
  | int : Int → Value
  | float : PyFloat → Value
deriving Repr, DecidableEq

/-- A MongoDB document: field name to value, in field order. -/
abbrev Doc := List (String × Value)

/-- First value stored under a field name, if any. -/
def docGet (d : Doc) (k : String) : Option Value :=
  (d.find? (fun kv => kv.1 = k)).map (fun kv => kv.2)

/-- `pd.isna` on our value model: true for `None` and NaN. -/
def pdIsna : Value → Bool
  | .null => true
  | .nan => true
  | _ => false

/-- ASCII whitespace as Python's `str.strip` and `int`/`float` parsing see it. -/
def isPySpace (c : Char) : Bool :=
  c = ' ' ∨ c = '\t' ∨ c = '\n' ∨ c = '\r'

/-- Python `str.strip()` (and the whitespace stripping done by `int`/`float`):
drop leading and trailing whitespace. -/
def pyStrip (s : String) : String :=
  String.mk (((s.toList.dropWhile isPySpace).reverse.dropWhile isPySpace).reverse)

/-- Numeric value of a digit string (`cs` all digits). -/
def digitsToNat (cs : List Char) : Nat :=
  cs.foldl (fun acc c => acc * 10 + (c.toNat - 48)) 0

/-- Python `int(s)` on a string: optional surrounding whitespace, an optional
sign, then decimal digits only; anything else raises `ValueError` (`none`).
(Underscore digit grouping, accepted by CPython between digits, does not occur
in this pipeline's inputs and is not modelled.) -/
def pyParseInt (s : String) : Option Int :=
  let cs := (pyStrip s).toList
  let (sign, ds) : Int × List Char :=
    match cs with
    | '-' :: rest => (-1, rest)
    | '+' :: rest => (1, rest)
    | _ => (1, cs)
  if ds ≠ [] ∧ ds.all Char.isDigit then some (sign * digitsToNat ds) else none

/-- Python `float(s)` on a string, for the decimal shapes this pipeline can
produce: optional surrounding whitespace, optional sign, digits with an
optional fractional part.  Exponents and `inf`/`nan` literals never occur in
the scraped fields and are not modelled (they would parse to `none`). -/
def pyParseFloat (s : String) : Option PyFloat :=
  let cs := (pyStrip s).toList
  let (sign, ds) : Int × List Char :=
    match cs with
    | '-' :: rest => (-1, rest)
    | '+' :: rest => (1, rest)
    | _ => (1, cs)
  let intPart := ds.takeWhile Char.isDigit
  let rest := ds.dropWhile Char.isDigit
  match rest with
  | [] =>
      if intPart ≠ [] then some ⟨sign * digitsToNat intPart, 0⟩ else none
  | '.' :: frac =>
      if frac.all Char.isDigit ∧ (intPart ≠ [] ∨ frac ≠ []) then
        some ⟨sign * (digitsToNat intPart * 10 ^ frac.length + digitsToNat frac),
          frac.length⟩
      else none
  | _ => none

/-- `str(value)` for the value shapes cleaning can receive. -/
def pyStr : Value → String
  | .null => "None"
  | .nan => "nan"
  | .str s => s
  | .int i => toString i
  | .float f => f.render

/-- `DataCleaner.clean_price` (data_cleaning.py:47-54):
`None`/NaN give `None`; otherwise `int(price)` with any exception giving
`None`.  `int` of a string succeeds only on a plain integer literal (commas
raise `ValueError`); `int` of a float truncates toward zero. -/
def clean_price (price : Value) : Option Int :=
  match price with
  | .null => none
  | .nan => none
  | .int i => some i
  | .float f => some f.trunc
  | .str s => pyParseInt s

/-- `DataCleaner.clean_numeric(value, 'int')` (data_cleaning.py:56-67):
`None`/NaN/`''` give `None`; otherwise `int(float(str(value).replace(',', '')))`
with any exception giving `None`.  Matching on the runtime type of the value:
for an `int` the round trip is the identity, for a `float` it truncates, for a
string the commas are stripped and the result parsed as a float then
truncated. -/
def clean_numeric_int (value : Value) : Option Int :=
  match value with
  | .null => none
  | .nan => none
  | .int i => some i
  | .float f => some f.trunc
  | .str s =>
      if s = "" then none
      else (pyParseFloat (String.mk (s.toList.filter (fun c => c ≠ ',')))).map PyFloat.trunc

/-- `DataCleaner.clean_numeric(value, 'float')` (data_cleaning.py:56-67),
the `'float'` branch: `float(str(value).replace(',', ''))`. -/
def clean_numeric_float (value : Value) : Option PyFloat :=
  match value with
  | .null => none
  | .nan => none
  | .int i => some ⟨i, 0⟩
  | .float f => some f
  | .str s =>
      if s = "" then none
      else pyParseFloat (String.mk (s.toList.filter (fun c => c ≠ ',')))

/-- `DataCleaner.clean_string` (data_cleaning.py:69-76): `None`/NaN/`''` give
`None`; otherwise `str(value).strip()`. -/
def clean_string (value : Value) : Option String :=
  match value with
  | .null => none
  | .nan => none
  | .str s => if s = "" then none else some (pyStrip s)
  | v => some (pyStrip (pyStr v))

/-! ## DataFrames and the batch cleaners -/

/-- A pandas DataFrame, column-oriented: column name paired with the column's
cells, one per row. -/
abbrev DataFrame := List (String × List Value)

/-- `col in df.columns`. -/
def hasCol (df : DataFrame) (c : String) : Bool :=
  df.any (fun p => p.1 = c)

/-- The cells of column `c` (empty if absent). -/
def getCol (df : DataFrame) (c : String) : List Value :=
  ((df.find? (fun p => p.1 = c)).map (fun p => p.2)).getD []

/-- `df[c] = df[c].apply(f)`: rewrite one column cell-wise. -/
def applyCol (df : DataFrame) (c : String) (f : Value → Value) : DataFrame :=
  df.map (fun p => if p.1 = c then (p.1, p.2.map f) else p)

/-- Store an optional coercion result back into a cell: Python `None` results
are stored as `null`. -/
def cellOfInt : Option Int → Value
  | none => .null
  | some i => .int i

def cellOfFloat : Option PyFloat → Value
  | none => .null
  | some f => .float f

def cellOfStr : Option String → Value
  | none => .null
  | some s => .str s

/-- Keep the first occurrence of each element, dropping later duplicates
(order of `pandas.unique`, dict insertion, and Mongo `distinct` results).
`seen` accumulates the elements already emitted. -/
def dedupAux {α : Type} [DecidableEq α] (seen : List α) : List α → List α
  | [] => []
  | v :: vs => if v ∈ seen then dedupAux seen vs else v :: dedupAux (v :: seen) vs

/-- First-occurrence deduplication. -/
def dedupKeepFirst {α : Type} [DecidableEq α] (l : List α) : List α :=
  dedupAux [] l

/-- Number of rows of a DataFrame (length of its first column). -/
def nRows (df : DataFrame) : Nat :=
  ((df.head?.map (fun p => p.2.length)).getD 0)

/-- All field names appearing in a list of documents, first occurrence
order — the column set `pd.DataFrame(list_of_dicts)` builds. -/
def docsCols : List Doc → List String
  | [] => []
  | d :: ds => dedupKeepFirst (d.map Prod.fst ++ docsCols ds)

/-- `pd.DataFrame(docs)`: one column per field name, missing fields filled
with NaN. -/
def dataFrameOfDocs (docs : List Doc) : DataFrame :=
  (docsCols docs).map (fun c => (c, docs.map (fun d => (docGet d c).getD .nan)))

/-- `df.to_dict('records')`: one document per row, fields in column order. -/
def toRecords (df : DataFrame) : List Doc :=
  (List.range (nRows df)).map (fun i => df.map (fun p => (p.1, (p.2.getD i .nan))))

/-- Error taxonomy of the cleaning stage.  The source raises `ValueError`
for a structurally missing required column (the spec's `SchemaError`). -/
inductive CleanError where
  | schemaError : CleanError
deriving Repr, DecidableEq

/-- Required columns of `DataCleaner.clean_rumah123_data`
(data_cleaning.py:81-91). -/
def rumah123RequiredColumns : List String :=
  ["judul_iklan", "harga", "kecamatan", "kabupaten_kota", "provinsi",
   "terakhir_diperbarui", "agen", "link_rumah123", "kamar_tidur",
   "kamar_mandi", "luas_tanah", "luas_bangunan", "carport",
   "sertifikat", "daya_listrik", "kamar_tidur_pembantu",
   "kamar_mandi_pembantu", "dapur", "ruang_makan", "ruang_tamu",
   "kondisi_perabotan", "material_bangunan", "material_lantai",
   "garasi", "jumlah_lantai", "konsep_dan_gaya_rumah", "pemandangan",
   "terjangkau_internet", "lebar_jalan", "tahun_dibangun",
   "tahun_direnovasi", "sumber_air", "hook", "kondisi_properti"]

/-- data_cleaning.py:98-102. -/
def numericIntColumns : List String :=
  ["kamar_tidur", "kamar_mandi", "carport", "daya_listrik",
   "kamar_tidur_pembantu", "kamar_mandi_pembantu", "dapur",
   "garasi", "jumlah_lantai", "tahun_dibangun", "tahun_direnovasi"]

/-- data_cleaning.py:104. -/
def numericFloatColumns : List String :=
  ["luas_tanah", "luas_bangunan"]

/-- data_cleaning.py:106-112. -/
def stringColumns : List String :=
  ["kecamatan", "kabupaten_kota", "provinsi", "terakhir_diperbarui",
   "agen", "link_rumah123", "sertifikat", "ruang_makan", "ruang_tamu",
   "kondisi_perabotan", "material_bangunan", "material_lantai",
   "konsep_dan_gaya_rumah", "pemandangan", "terjangkau_internet",
   "lebar_jalan", "sumber_air", "hook", "kondisi_properti"]

/-- `DataCleaner.clean_rumah123_data` (data_cleaning.py:78-130): raise
`SchemaError` if any required column is structurally absent, otherwise apply
the per-column coercions in source order. -/
def clean_rumah123_data (df : DataFrame) : Except CleanError DataFrame :=
  if rumah123RequiredColumns.all (fun c => hasCol df c) then
    let df := applyCol df "harga" (fun v => cellOfInt (clean_price v))
    let df := numericIntColumns.foldl
      (fun df c => applyCol df c (fun v => cellOfInt (clean_numeric_int v))) df
    let df := numericFloatColumns.foldl
      (fun df c => applyCol df c (fun v => cellOfFloat (clean_numeric_float v))) df
    let df := stringColumns.foldl
      (fun df c => applyCol df c (fun v => cellOfStr (clean_string v))) df
    .ok df
  else .error .schemaError

/-- Required columns of `DataCleaner.clean_osm_facilities_data`
(data_cleaning.py:135-139). -/
def osmRequiredColumns : List String :=
  ["kecamatan", "jumlah_fasilitas_pendidikan",
   "jumlah_fasilitas_kesehatan", "jumlah_fasilitas_perbelanjaan",
   "jumlah_fasilitas_transportasi", "jumlah_fasilitas_rekreasi"]

/-- `DataCleaner.clean_osm_facilities_data` (data_cleaning.py:132-157). -/
def clean_osm_facilities_data (df : DataFrame) : Except CleanError DataFrame :=
  if osmRequiredColumns.all (fun c => hasCol df c) then
    let facilityColumns := osmRequiredColumns.filter (fun c => c ≠ "kecamatan")
    let df := facilityColumns.foldl
      (fun df c => applyCol df c (fun v => cellOfInt (clean_numeric_int v))) df
    let df := applyCol df "kecamatan" (fun v => cellOfStr (clean_string v))
    .ok df
  else .error .schemaError

/-! ## Progress state and the per-page cleaning orchestration -/

/-- The persisted progress record
`{current_page: int, provinces: {region: int, ...}}`; `provinces` keeps dict
insertion order. -/
structure Progress where
  current_page : Int
  provinces : List (String × Int)
deriving Repr, DecidableEq

/-- Cursor of one region, if present. -/
def Progress.cursorOf (p : Progress) (region : String) : Option Int :=
  ((p.provinces.find? (fun kv => kv.1 = region)).map (fun kv => kv.2))

/-- `Rumah123Scraper.update_progress` (rumah123_scraper.py:236-249): a single
`$set` writing `provinces.<province> = page` and `current_page = page`,
unconditionally. -/
def update_progress (p : Progress) (province : String) (page : Int) : Progress :=
  { current_page := page,
    provinces := p.provinces.map
      (fun kv => if kv.1 = province then (kv.1, page) else kv) }

/-- The progress advancement performed by
`DataCleaner.process_current_page` (data_cleaning.py:194-198): every province
whose cursor equals `current_page` is moved to `current_page + 1`, and
`current_page` is incremented unconditionally. -/
def advance_all (p : Progress) : Progress :=
  { current_page := p.current_page + 1,
    provinces := p.provinces.map
      (fun kv => if kv.2 = p.current_page then (kv.1, p.current_page + 1) else kv) }

/-- The advancement rule in the spec's words (§4.1): `advance(region,
new_page)` sets `provinces[region] = new_page` and, if this was the last
region remaining at `current_page`, increments `current_page`; no other
region's cursor moves. -/
def advance_specified (p : Progress) (region : String) (new_page : Int) : Progress :=
  let lastAtCurrent :=
    p.provinces.all (fun kv => kv.1 = region ∨ kv.2 ≠ p.current_page)
  { current_page := if lastAtCurrent then p.current_page + 1 else p.current_page,
    provinces := p.provinces.map
      (fun kv => if kv.1 = region then (kv.1, new_page) else kv) }

/-- The cleaning job's durable state: the five MongoDB collections it touches
(data_cleaning.py:30-34).  `progress_store` is the stored
`current_progress` document (`none` when it does not exist). -/
structure CleanDB where
  raw_listings : List Doc
  facilities : List Doc
  cleaned_listings : List Doc
  cleaned_facilities : List Doc
  progress_store : Option Progress
deriving Repr, DecidableEq

/-- `DataCleaner.process_current_page` (data_cleaning.py:159-209).  Returns
the Python function's boolean result paired with the database state after the
run; the catch-all `except` (lines 207-209) makes a failure return `false`
while keeping whatever writes already happened.  This definition models the
three storage writes (lines 178, 191, 200) as succeeding;
`process_current_page_w` below generalises them to fallible operations and
coincides with this definition when all three are reachable
(`process_current_page_w_allOk`). -/
def process_current_page (db : CleanDB) (progress : Progress) : Bool × CleanDB :=
  let current_page := progress.current_page
  let raw := db.raw_listings.filter
    (fun d => docGet d "page" = some (.int current_page))
  if raw.isEmpty then (false, db)
  else
    match clean_rumah123_data (dataFrameOfDocs raw) with
    | .error _ => (false, db)
    | .ok cleaned_listings_df =>
      let cleaned_records := toRecords cleaned_listings_df
      let db₁ :=
        if cleaned_records.isEmpty then db
        else { db with cleaned_listings := db.cleaned_listings ++ cleaned_records }
      let unique_kecamatans := dedupKeepFirst (getCol cleaned_listings_df "kecamatan")
      let facilities_data := db₁.facilities.filter
        (fun d => match docGet d "kecamatan" with
          | some v => unique_kecamatans.contains v
          | none => false)
      let finish : CleanDB → Bool × CleanDB := fun db₂ =>
        let progress' := advance_all progress
        (true, { db₂ with progress_store := some progress' })
      if facilities_data.isEmpty then finish db₁
      else
        match clean_osm_facilities_data (dataFrameOfDocs facilities_data) with
        | .error _ => (false, db₁)
        | .ok cleaned_facilities_df =>
          finish { db₁ with cleaned_facilities :=
            db₁.cleaned_facilities ++ toRecords cleaned_facilities_df }

/-- `DataCleaner.run` (data_cleaning.py:211-229): load the progress document
(raising, absorbed by the catch-all, when absent) and process the current
page. -/
def cleaner_run (db : CleanDB) : CleanDB :=
  match db.progress_store with
  | none => db
  | some progress => (process_current_page db progress).2

/-- Reachability of the three MongoDB writes performed by
`DataCleaner.process_current_page`: `cleaned_listings.insert_many`
(data_cleaning.py:178), `cleaned_facilities.insert_many` (line 191) and the
progress `update_one` (line 200).  An unreachable operation raises without
effect, and the exception is absorbed by the catch-all (lines 207-209). -/
structure CleanWorld where
  listingsInsertOk : Bool
  facilitiesInsertOk : Bool
  progressWriteOk : Bool
deriving Repr, DecidableEq

/-- `DataCleaner.process_current_page` (data_cleaning.py:159-209) with the
three storage writes fallible: a failing write raises, the catch-all returns
`False`, and every write that already succeeded in this run stays persisted.
In particular a progress-write failure after the facilities insert leaves the
run failed with the cleaned facilities extended.  The two collection reads
(lines 166 and 183) can also raise; the same catch-all turns them into
`False` runs of exactly the shape of the early-failure branches already
present here (nothing further written), so they carry no separate flag. -/
def process_current_page_w (w : CleanWorld) (db : CleanDB) (progress : Progress) :
    Bool × CleanDB :=
  let current_page := progress.current_page
  let raw := db.raw_listings.filter
    (fun d => docGet d "page" = some (.int current_page))
  if raw.isEmpty then (false, db)
  else
    match clean_rumah123_data (dataFrameOfDocs raw) with
    | .error _ => (false, db)
    | .ok cleaned_listings_df =>
      let cleaned_records := toRecords cleaned_listings_df
      let rest : CleanDB → Bool × CleanDB := fun db₁ =>
        let unique_kecamatans := dedupKeepFirst (getCol cleaned_listings_df "kecamatan")
        let facilities_data := db₁.facilities.filter
          (fun d => match docGet d "kecamatan" with
            | some v => unique_kecamatans.contains v
            | none => false)
        let finishProgress : CleanDB → Bool × CleanDB := fun db₂ =>
          if w.progressWriteOk then
            (true, { db₂ with progress_store := some (advance_all progress) })
          else (false, db₂)
        if facilities_data.isEmpty then finishProgress db₁
        else
          match clean_osm_facilities_data (dataFrameOfDocs facilities_data) with
          | .error _ => (false, db₁)
          | .ok cleaned_facilities_df =>
            if w.facilitiesInsertOk then
              finishProgress { db₁ with cleaned_facilities :=
                db₁.cleaned_facilities ++ toRecords cleaned_facilities_df }
            else (false, db₁)
      if cleaned_records.isEmpty then rest db
      else if w.listingsInsertOk then
        rest { db with cleaned_listings := db.cleaned_listings ++ cleaned_records }
      else (false, db)

/-! ## The listing crawler (`Rumah123Scraper`) -/

/-- Result of an HTTP fetch, after the session's mounted retry adapter:
either a parsed payload or a `requests.RequestException`. -/
inductive FetchResult (α : Type) where
  | ok : α → FetchResult α
  | netError : FetchResult α
deriving Repr, DecidableEq

/-- One house card on a search page, as the selectors see it: the optional
title element and the optional detail link. -/
structure Card where
  title : Option String
  link : Option String
deriving Repr, DecidableEq

/-- A candidate found on a search page: title plus absolute detail URL. -/
structure House where
  judul_iklan : String
  link : String
deriving Repr, DecidableEq

/-- The fixed province list (rumah123_scraper.py:32-41). -/
def provincesList : List String :=
  ["dki-jakarta", "jawa-barat", "banten", "jawa-timur", "jawa-tengah",
   "bali", "daerah-istimewa-yogyakarta", "sumatera-utara", "kepulauan-riau",
   "sulawesi-selatan", "kalimantan-timur", "riau", "lampung", "sumatera-selatan",
   "kalimantan-barat", "sulawesi-utara", "nusa-tenggara-barat", "nusa-tenggara-timur",
   "sumatera-barat", "kalimantan-selatan", "jambi", "kepulauan-bangka-belitung",
   "kalimantan-tengah", "papua", "aceh", "bengkulu", "papua-barat", "sulawesi-tengah",
   "sulawesi-tenggara", "gorontalo", "kalimantan-utara", "maluku-utara",
   "sulawesi-barat", "maluku"]

/-- The default progress document created on first run
(rumah123_scraper.py:223-230). -/
def defaultProgress : Progress :=
  { current_page := 1, provinces := provincesList.map (fun pr => (pr, 1)) }

/-- `Rumah123Scraper.fetch_existing_titles` (rumah123_scraper.py:72-79):
the distinct `judul_iklan` values; on any storage exception the error is
logged and an empty set returned. -/
def fetch_existing_titles (storedTitles : List String) (storeReachable : Bool) :
    List String :=
  if storeReachable then dedupKeepFirst storedTitles else []

/-- The distinct `judul_iklan` values of a raw-listings collection
(the argument `fetch_existing_titles` reads from Mongo). -/
def listingTitles (raw_listings : List Doc) : List String :=
  raw_listings.filterMap (fun d =>
    match docGet d "judul_iklan" with
    | some (.str s) => some s
    | _ => none)

/-- `Rumah123Scraper.scrape_search_page` (rumah123_scraper.py:81-119): on a
request failure return `[]`; otherwise keep each card having both a title and
a link whose stripped title is nonempty and not already in the dedup set.  A
card-level parse failure is skipped (`continue`). -/
def scrape_search_page (page : FetchResult (List Card)) (existing_titles : List String) :
    List House :=
  match page with
  | .netError => []
  | .ok cards =>
      cards.filterMap (fun card =>
        match card.title, card.link with
        | some t, some l =>
            let title := pyStrip t
            if title ≠ "" ∧ title ∉ existing_titles then
              some { judul_iklan := title, link := "https://www.rumah123.com" ++ l }
            else none
        | _, _ => none)

/-- `Rumah123Scraper.store_to_mongodb` adds `province` and `page` metadata to
each record before insertion (rumah123_scraper.py:203-207; the `inserted_at`
wall-clock timestamp is not modelled). -/
def addMeta (province : String) (page : Int) (d : Doc) : Doc :=
  d ++ [("province", .str province), ("page", .int page)]

/-- Storage/network environment of one scraper run: reachability of the
store for the dedup read, the listing insert, and the progress write, plus
oracles giving each URL's fetched search page and detail document.  A detail
oracle answering `.netError` models `scrape_house_details` returning `{}`
(rumah123_scraper.py:192-194). -/
structure ScrapeWorld where
  dedupLoadOk : Bool
  storeOk : Bool
  progressWriteOk : Bool
  searchPage : String → FetchResult (List Card)
  detail : String → FetchResult Doc

/-- Durable state touched by the scraper. -/
structure ScrapeDB where
  raw_listings : List Doc
  progress_store : Option Progress
deriving Repr, DecidableEq

/-- The search URL for a province and page (rumah123_scraper.py:261). -/
def searchUrl (province : String) (page : Int) : String :=
  "https://www.rumah123.com/jual/" ++ province ++ "/rumah/?page=" ++ toString page

/-- The body of the scraper's per-province loop (rumah123_scraper.py:257-281):
skip provinces not on the current page; scrape the search page; on zero new
houses just continue; fetch each detail page, dropping empty `{}` results;
store the batch and, only if the store succeeded, update progress.  Failures
of the store or of the progress write are logged and absorbed. -/
def province_step (w : ScrapeWorld) (existing_titles : List String)
    (current_page : Int) (db : ScrapeDB) (pr : String × Int) : ScrapeDB :=
  if pr.2 ≠ current_page then db
  else
    let houses := scrape_search_page (w.searchPage (searchUrl pr.1 pr.2)) existing_titles
    if houses.isEmpty then db
    else
      let house_details := houses.filterMap (fun h =>
        match w.detail h.link with
        | .ok d => if d.isEmpty then none else some d
        | .netError => none)
      if house_details.isEmpty then db
      else if w.storeOk then
        let db' := { db with raw_listings :=
          db.raw_listings ++ house_details.map (addMeta pr.1 pr.2) }
        if w.progressWriteOk then
          { db' with progress_store :=
            db'.progress_store.map (fun p => update_progress p pr.1 pr.2) }
        else db'
      else db

/-- The scraper's province loop, in dict order. -/
def runProvinces (w : ScrapeWorld) (existing_titles : List String)
    (current_page : Int) (db : ScrapeDB) : List (String × Int) → ScrapeDB
  | [] => db
  | pr :: rest =>
      runProvinces w existing_titles current_page
        (province_step w existing_titles current_page db pr) rest

/-- `Rumah123Scraper.run` (rumah123_scraper.py:251-281) together with
`load_progress` (219-234): load or initialise the progress document, load the
dedup set, then iterate over the provinces at the current page. -/
def scraper_run (w : ScrapeWorld) (db₀ : ScrapeDB) : ScrapeDB :=
  let (progress, db) :=
    match db₀.progress_store with
    | some p => (p, db₀)
    | none => (defaultProgress, { db₀ with progress_store := some defaultProgress })
  let existing_titles := fetch_existing_titles (listingTitles db.raw_listings) w.dedupLoadOk
  runProvinces w existing_titles progress.current_page db progress.provinces

/-! ## The enrichment client (`OSMFacilitiesFetcher`) -/

/-- One Overpass API attempt's outcome, as seen by
`get_facilities_count`: a 200 response (with or without an `elements`
array, whose length is the count), a 429 with an optional parsed
`Retry-After`, another non-200 status, or an exception during the call. -/
inductive ApiResponse where
  | ok : Bool → Nat → ApiResponse
  | rateLimited : Option Nat → ApiResponse
  | serverError : Nat → ApiResponse
  | exn : ApiResponse
deriving Repr, DecidableEq

/-- The category → filter-expression table (fetch_facilities.py:41-61). -/
def facility_queries : List (String × List String) :=
  [("jumlah_fasilitas_pendidikan",
    ["amenity~\"school|university|college|kindergarten\""]),
   ("jumlah_fasilitas_kesehatan",
    ["amenity~\"hospital|clinic|doctors|dentist|pharmacy\""]),
   ("jumlah_fasilitas_perbelanjaan",
    ["shop~\"supermarket|mall|department_store|convenience\"",
     "amenity~\"marketplace|shopping_mall\""]),
   ("jumlah_fasilitas_transportasi",
    ["amenity~\"bus_station|taxi|ferry_terminal\"",
     "aeroway~\"aerodrome|terminal\"",
     "railway~\"station|halt\""]),
   ("jumlah_fasilitas_rekreasi",
    ["leisure~\"park|sports_centre|fitness_centre|swimming_pool\"",
     "amenity~\"park|theatre|cinema\""])]

/-- Result of the inner `while retry_count < max_retries` loop of
`get_facilities_count` (fetch_facilities.py:101-132) for one filter
expression: the count on a 200-`break` (`none` when the loop exited because
the budget ran out), the next oracle attempt index, the retry counter after
the loop, and the `time.sleep` durations in order. -/
structure LoopResult where
  success : Option Nat
  attempt : Nat
  retry_count : Nat
  sleeps : List Nat
deriving Repr, DecidableEq

/-- The inner attempt loop.  `fuel` is `max_retries - retry_count`, the number
of times the guard `retry_count < max_retries` can still pass; each failing
iteration increments `retry_count`, so the recursion is structural in `fuel`.
Every iteration first sleeps 2 s (rate limiting, line 104); a 429 sleeps the
`Retry-After` duration (default 60) before counting a retry (lines 119-123);
any other failure or exception sleeps 5 s (lines 124-132); a 200 breaks
(lines 113-118, counting 0 when the response has no `elements` array). -/
def whileAttempt (oracle : Nat → ApiResponse) :
    Nat → Nat → Nat → LoopResult
  | 0, attempt, retry_count =>
      { success := none, attempt := attempt, retry_count := retry_count, sleeps := [] }
  | fuel + 1, attempt, retry_count =>
      match oracle attempt with
      | .ok hasElements cnt =>
          { success := some (if hasElements then cnt else 0),
            attempt := attempt + 1, retry_count := retry_count, sleeps := [2] }
      | .rateLimited ra =>
          let r := whileAttempt oracle fuel (attempt + 1) (retry_count + 1)
          { r with sleeps := 2 :: ra.getD 60 :: r.sleeps }
      | .serverError _ =>
          let r := whileAttempt oracle fuel (attempt + 1) (retry_count + 1)
          { r with sleeps := 2 :: 5 :: r.sleeps }
      | .exn =>
          let r := whileAttempt oracle fuel (attempt + 1) (retry_count + 1)
          { r with sleeps := 2 :: 5 :: r.sleeps }

/-- The `for facility_filter in facility_filters` loop of
`get_facilities_count` for one category: run the attempt loop for each filter
expression, threading the single `retry_count` (initialised once per region,
line 93, and never reset), and summing the counts.  After each filter's loop,
`retry_count >= max_retries` returns `None` for the whole region (lines
134-136).  Returns the category count with the final retry counter, paired
with the next attempt index. -/
def runFilters (oracle : Nat → ApiResponse) (max_retries : Nat) :
    List String → Nat → Nat → Option (Nat × Nat) × Nat
  | [], attempt, retry_count => (some (0, retry_count), attempt)
  | _filter :: fs, attempt, retry_count =>
      let r := whileAttempt oracle (max_retries - retry_count) attempt retry_count
      match r.success with
      | none => (none, r.attempt)
      | some cnt =>
          match runFilters oracle max_retries fs r.attempt r.retry_count with
          | (none, a) => (none, a)
          | (some (total, rc), a) => (some (cnt + total, rc), a)

/-- The `for category, facility_filters in facility_queries` loop: build the
per-category counts in table order, threading attempt index and the shared
retry counter. -/
def runCategories (oracle : Nat → ApiResponse) (max_retries : Nat) :
    List (String × List String) → Nat → Nat →
    Option (List (String × Nat) × Nat) × Nat
  | [], attempt, retry_count => (some ([], retry_count), attempt)
  | (cat, filters) :: rest, attempt, retry_count =>
      match runFilters oracle max_retries filters attempt retry_count with
      | (none, a) => (none, a)
      | (some (total, rc), a) =>
          match runCategories oracle max_retries rest a rc with
          | (none, a2) => (none, a2)
          | (some (results, rc2), a2) => (some ((cat, total) :: results, rc2), a2)

/-- `OSMFacilitiesFetcher.get_facilities_count` (fetch_facilities.py:87-147)
started at oracle attempt index `attempt₀`: the per-category counts (`none`
when the shared retry budget ran out), with the next attempt index. -/
def get_facilities_count_at (oracle : Nat → ApiResponse) (max_retries : Nat)
    (attempt₀ : Nat) : Option (List (String × Nat)) × Nat :=
  match runCategories oracle max_retries facility_queries attempt₀ 0 with
  | (none, a) => (none, a)
  | (some (results, _rc), a) => (some results, a)

/-- `get_facilities_count` with its default budget `max_retries = 3`. -/
def get_facilities_count (oracle : Nat → ApiResponse) (max_retries : Nat := 3) :
    Option (List (String × Nat)) :=
  (get_facilities_count_at oracle max_retries 0).1

/-- Modelled from the spec's words (§4.3: "a bounded retry count per filter
expression"): the same client but with the retry counter reset for every
filter expression, so each filter expression has the full `max_retries`
budget.  Used only to compare the specified budget discipline with the
implemented one. -/
def runFiltersPerFilterBudget (oracle : Nat → ApiResponse) (max_retries : Nat) :
    List String → Nat → Option Nat × Nat
  | [], attempt => (some 0, attempt)
  | _filter :: fs, attempt =>
      let r := whileAttempt oracle max_retries attempt 0
      match r.success with
      | none => (none, r.attempt)
      | some cnt =>
          match runFiltersPerFilterBudget oracle max_retries fs r.attempt with
          | (none, a) => (none, a)
          | (some total, a) => (some (cnt + total), a)

/-- Modelled from the spec's words: `get_facilities_count` under the
per-filter-expression retry budget of §4.3. -/
def get_facilities_count_perFilterBudget (oracle : Nat → ApiResponse)
    (max_retries : Nat := 3) : Option (List (String × Nat)) :=
  let step : List (String × List String) → Nat → Option (List (String × Nat)) × Nat :=
    fun qs a₀ => qs.foldl
      (fun acc cq =>
        match acc with
        | (none, a) => (none, a)
        | (some results, a) =>
            match runFiltersPerFilterBudget oracle max_retries cq.2 a with
            | (none, a2) => (none, a2)
            | (some total, a2) => (some (results ++ [(cq.1, total)]), a2))
      (some [], a₀)
  (step facility_queries 0).1

/-- `OSMFacilitiesFetcher.get_current_kecamatans` (fetch_facilities.py:150-177):
the distinct `kecamatan` values among raw listings whose `page` equals the
current page, keeping only documents where the field exists and is not null. -/
def get_current_kecamatans (raw_listings : List Doc) (progress : Progress) :
    List Value :=
  dedupKeepFirst (raw_listings.filterMap (fun d =>
    if docGet d "page" = some (.int progress.current_page) then
      match docGet d "kecamatan" with
      | some v => if v ≠ .null then some v else none
      | none => none
    else none))

/-- `OSMFacilitiesFetcher.facility_exists` (fetch_facilities.py:201-203). -/
def facility_exists (facilities : List Doc) (k : Value) : Bool :=
  facilities.any (fun d => docGet d "kecamatan" = some k)

/-- The document stored for a successful region: the five category counts in
table order plus `kecamatan` and the success flag
(fetch_facilities.py:138-145; the `timestamp` and `updated_at` wall-clock
fields are not modelled). -/
def mkFacilityDoc (k : Value) (counts : List (String × Nat)) : Doc :=
  counts.map (fun p => (p.1, Value.int p.2)) ++
    [("kecamatan", k), ("status", .str "success")]

/-- `$set` of all of `incoming`'s fields into `base`: existing fields are
updated in place, new fields appended. -/
def mergeFields (base incoming : Doc) : Doc :=
  base.map (fun kv =>
    match incoming.find? (fun kv2 => kv2.1 = kv.1) with
    | some kv2 => kv2
    | none => kv) ++
  incoming.filter (fun kv2 => base.all (fun kv => kv.1 ≠ kv2.1))

/-- `OSMFacilitiesFetcher.save_facilities_to_mongodb`
(fetch_facilities.py:179-199): upsert keyed by `kecamatan` — update the first
matching document, else insert. -/
def upsertByKecamatan (facilities : List Doc) (k : Value) (doc : Doc) : List Doc :=
  match facilities with
  | [] => [doc]
  | d :: ds =>
      if docGet d "kecamatan" = some k then mergeFields d doc :: ds
      else d :: upsertByKecamatan ds k doc

/-- Durable state touched by the fetcher. -/
structure FetchDB where
  raw_listings : List Doc
  facilities : List Doc
  progress_store : Option Progress
deriving Repr, DecidableEq

/-- The body of the fetcher's per-kecamatan loop (fetch_facilities.py:217-229):
skip regions that already have a facility record (issuing no query at all);
otherwise fetch the counts, storing them only on success.  The state is the
facilities collection paired with the oracle attempt index. -/
def fetch_step (oracle : Nat → ApiResponse) (st : List Doc × Nat) (k : Value) :
    List Doc × Nat :=
  if facility_exists st.1 k then st
  else
    match get_facilities_count_at oracle 3 st.2 with
    | (none, a) => (st.1, a)
    | (some counts, a) => (upsertByKecamatan st.1 k (mkFacilityDoc k counts), a)

/-- `OSMFacilitiesFetcher.run` (fetch_facilities.py:205-234): nothing happens
without a progress document; otherwise process each current-page kecamatan in
turn.  (Python iterates a `set`; the model fixes first-occurrence order, one
of the admissible orders.) -/
def fetcher_run (oracle : Nat → ApiResponse) (db : FetchDB) : FetchDB :=
  match db.progress_store with
  | none => db
  | some progress =>
      let ks := get_current_kecamatans db.raw_listings progress
      { db with facilities := (ks.foldl (fetch_step oracle) (db.facilities, 0)).1 }

/-! ## Concrete states and environments used by the closed theorems below -/

/-- A shared two-province progress state at page 1, used by several concrete
runs below. -/
def twoProvinceProgress : Progress :=
  { current_page := 1, provinces := [("aceh", 1), ("bali", 1)] }

/-- A raw listing document carrying every required column (with `kecamatan`
set and the rest null) and the page tag, so that listing cleaning succeeds. -/
def c3RawDoc : Doc :=
  rumah123RequiredColumns.map
    (fun c => (c, if c = "kecamatan" then Value.str "KecA" else Value.null)) ++
  [("page", Value.int 1)]

/-- A database in which listing cleaning succeeds but the facilities batch
for region `"KecA"` is missing its count columns, so facilities cleaning
fails after the cleaned listings were already inserted. -/
def c3DB : CleanDB :=
  { raw_listings := [c3RawDoc],
    facilities := [[("kecamatan", Value.str "KecA")]],
    cleaned_listings := [],
    cleaned_facilities := [],
    progress_store := some ⟨1, [("aceh", 1)]⟩ }

/-- A facilities document carrying every required column for region
`"KecA"`, so that facilities cleaning succeeds. -/
def c3FacDoc : Doc :=
  osmRequiredColumns.map
    (fun c => (c, if c = "kecamatan" then Value.str "KecA" else Value.int 3))

/-- A database on which both cleaning steps succeed: with the progress write
unreachable, the run fails only at the final `update_one`, after both cleaned
collections were extended. -/
def c3DB2 : CleanDB :=
  { raw_listings := [c3RawDoc],
    facilities := [c3FacDoc],
    cleaned_listings := [],
    cleaned_facilities := [],
    progress_store := some ⟨1, [("aceh", 1)]⟩ }

/-- A crawl environment whose index pages are empty and whose stores are
reachable, used to witness the zero-candidate behaviour. -/
def c9World : ScrapeWorld :=
  { dedupLoadOk := true, storeOk := true, progressWriteOk := true,
    searchPage := fun _ => .ok [],
    detail := fun _ => .netError }

/-- A run in which the dedup-set read fails (store unreachable for that
query) while the page fetches and later writes succeed: one raw listing
titled `"T"` is already stored, and the site still serves it. -/
def c8World : ScrapeWorld :=
  { dedupLoadOk := false, storeOk := true, progressWriteOk := true,
    searchPage := fun _ => .ok [⟨some "T", some "/properti/x"⟩],
    detail := fun _ => .ok [("judul_iklan", Value.str "T")] }

def c8DB : ScrapeDB :=
  { raw_listings := [[("judul_iklan", Value.str "T")]],
    progress_store := some ⟨1, [("aceh", 1)]⟩ }

/-- A world in which the data and progress stores are unreachable for
writes. -/
def c8OffWorld : ScrapeWorld :=
  { c8World with dedupLoadOk := true, storeOk := false, progressWriteOk := false }

/-- A response stream in which every third attempt succeeds and the two
before it hit a retryable server error. -/
def c6Oracle : Nat → ApiResponse := fun n =>
  if n % 3 = 2 then .ok true 7 else .serverError 500

/-! ## General lemmas -/

theorem mem_dedupAux {α : Type} [DecidableEq α] (l : List α) :
    ∀ (seen : List α) (v : α), v ∈ dedupAux seen l ↔ v ∈ l ∧ v ∉ seen := by
  induction l with
  | nil => intro seen v; simp [dedupAux]
  | cons x xs ih =>
      intro seen v
      simp only [dedupAux]
      by_cases hx : x ∈ seen
      · rw [if_pos hx, ih seen v]
        constructor
        · rintro ⟨h1, h2⟩; exact ⟨List.mem_cons_of_mem _ h1, h2⟩
        · rintro ⟨h1, h2⟩
          rcases List.mem_cons.mp h1 with rfl | h1
          · exact absurd hx h2
          · exact ⟨h1, h2⟩
      · rw [if_neg hx]
        by_cases hvx : v = x
        · subst hvx
          simp [hx]
        · simp [List.mem_cons, hvx, ih (x :: seen) v]

theorem mem_dedupKeepFirst {α : Type} [DecidableEq α] (l : List α) (v : α) :
    v ∈ dedupKeepFirst l ↔ v ∈ l := by
  rw [dedupKeepFirst, mem_dedupAux]
  simp

theorem find?_map_fst (f : String × Int → String × Int)
    (hf : ∀ kv, (f kv).1 = kv.1) (r : String) (l : List (String × Int)) :
    (l.map f).find? (fun kv => kv.1 = r) = (l.find? (fun kv => kv.1 = r)).map f := by
  induction l with
  | nil => rfl
  | cons kv l ih =>
      by_cases h : kv.1 = r
      · simp [List.find?_cons, hf kv, h]
      · simp [List.find?_cons, hf kv, h, ih]

theorem cursorOf_mapped (cp : Int) (provinces : List (String × Int))
    (f : String × Int → String × Int) (hf : ∀ kv, (f kv).1 = kv.1) (r : String) :
    Progress.cursorOf ⟨cp, provinces.map f⟩ r =
      ((provinces.find? (fun kv => kv.1 = r)).map f).map (fun kv => kv.2) := by
  unfold Progress.cursorOf
  rw [show (Progress.mk cp (provinces.map f)).provinces = provinces.map f from rfl]
  rw [find?_map_fst f hf r provinces]

/-! ## C1: progress advancement -/

/-- C1 counterexample.  The claim reads `advance(region, new_page)` as setting
`provinces[region] = new_page` and incrementing `current_page` only if that
region was the last one remaining at `current_page`, and says no advancement
step moves any other region's cursor.  With two provinces both at page 1:
`update_progress "aceh" 2` sets `current_page` to 2 although `"bali"` is
still at page 1 (so `"aceh"` was not the last region remaining), differing
from the specified rule at this input; and the cleaning stage's advancement
moves `"bali"`'s cursor to 2 although only `"aceh"`'s data could have been
processed. -/
theorem c1_advance_counterexample :
    update_progress twoProvinceProgress "aceh" 2 ≠
      advance_specified twoProvinceProgress "aceh" 2 ∧
    Progress.cursorOf (advance_all twoProvinceProgress) "bali" = some 2 := by
  decide

/-- C1 amended: what the code actually does.  `update_progress` sets the
region's cursor to `new_page`, leaves every other region's cursor unchanged,
and sets `current_page := new_page` unconditionally (it never checks whether
the region was the last one at `current_page`, and never increments — as
called by the scraper, `new_page` is the page just finished).  The cleaning
stage's `advance_all` increments `current_page` unconditionally and moves
the cursor of every region sitting at `current_page` — not only the region
just processed — leaving other cursors unchanged. -/
theorem c1_advance_behaviour (p : Progress) (region other : String) (new_page : Int) :
    (update_progress p region new_page).current_page = new_page ∧
    ((p.cursorOf region).isSome →
      (update_progress p region new_page).cursorOf region = some new_page) ∧
    (other ≠ region →
      (update_progress p region new_page).cursorOf other = p.cursorOf other) ∧
    (advance_all p).current_page = p.current_page + 1 ∧
    (p.cursorOf region = some p.current_page →
      (advance_all p).cursorOf region = some (p.current_page + 1)) ∧
    (∀ c, p.cursorOf region = some c → c ≠ p.current_page →
      (advance_all p).cursorOf region = some c) := by
  have hfu : ∀ kv : String × Int,
      ((fun kv : String × Int =>
        if kv.1 = region then (kv.1, new_page) else kv) kv).1 = kv.1 := by
    intro kv; by_cases h : kv.1 = region <;> simp [h]
  have hga : ∀ kv : String × Int,
      ((fun kv : String × Int =>
        if kv.2 = p.current_page then (kv.1, p.current_page + 1) else kv) kv).1 = kv.1 := by
    intro kv; by_cases h : kv.2 = p.current_page <;> simp [h]
  have hup : update_progress p region new_page =
      ⟨new_page, p.provinces.map
        (fun kv => if kv.1 = region then (kv.1, new_page) else kv)⟩ := rfl
  have hav : advance_all p =
      ⟨p.current_page + 1, p.provinces.map
        (fun kv => if kv.2 = p.current_page then (kv.1, p.current_page + 1) else kv)⟩ := rfl
  refine ⟨rfl, ?_, ?_, rfl, ?_, ?_⟩
  · intro hsome
    rcases Option.isSome_iff_exists.mp hsome with ⟨c, hc⟩
    unfold Progress.cursorOf at hc
    rcases Option.map_eq_some'.mp hc with ⟨kv, hkv, _⟩
    have hkey : kv.1 = region := by simpa using List.find?_some hkv
    rw [hup, cursorOf_mapped _ _ _ hfu region, hkv]
    simp [hkey]
  · intro hne
    rw [hup, cursorOf_mapped _ _ _ hfu other]
    unfold Progress.cursorOf
    cases hfind : p.provinces.find? (fun kv => kv.1 = other) with
    | none => simp
    | some kv =>
        have hkey : kv.1 = other := by simpa using List.find?_some hfind
        have : kv.1 ≠ region := by rw [hkey]; exact hne
        simp [this]
  · intro hcur
    unfold Progress.cursorOf at hcur
    rcases Option.map_eq_some'.mp hcur with ⟨kv, hkv, hsnd⟩
    rw [hav, cursorOf_mapped _ _ _ hga region, hkv]
    simp [hsnd]
  · intro c hc hne
    unfold Progress.cursorOf at hc
    rcases Option.map_eq_some'.mp hc with ⟨kv, hkv, hsnd⟩
    have : kv.2 ≠ p.current_page := by rw [hsnd]; exact hne
    rw [hav, cursorOf_mapped _ _ _ hga region, hkv]
    simp [hsnd, hne]

/-- Witness for `c1_advance_behaviour` (C1) at the concrete two-province
state: updating `"aceh"` to page 2 moves its cursor and not `"bali"`'s, and
the cleaning advancement moves `"aceh"` (at the current page) to page 2. -/
theorem c1_advance_behaviour_witness :
    (update_progress twoProvinceProgress "aceh" 2).cursorOf "aceh" = some 2 ∧
    (update_progress twoProvinceProgress "aceh" 2).cursorOf "bali" =
      twoProvinceProgress.cursorOf "bali" ∧
    (advance_all twoProvinceProgress).cursorOf "aceh" = some (1 + 1) := by
  have h := c1_advance_behaviour twoProvinceProgress "aceh" "bali" 2
  exact ⟨h.2.1 (by decide), h.2.2.1 (by decide), h.2.2.2.2.1 (by decide)⟩

/-! ## C10: enrichment region selection -/

/-- C10: the set of regions submitted for enrichment is exactly the set of
distinct `kecamatan` values among raw listings stored for the current page —
pooled across all provinces (no province condition appears) — excluding every
listing whose `kecamatan` field is absent or null.  In particular a listing
whose region could not be parsed (`kecamatan` null) never triggers
enrichment. -/
theorem c10_enrichment_region_selection (raw_listings : List Doc)
    (progress : Progress) (k : Value) :
    k ∈ get_current_kecamatans raw_listings progress ↔
      (k ≠ Value.null ∧ ∃ d ∈ raw_listings,
        docGet d "page" = some (.int progress.current_page) ∧
        docGet d "kecamatan" = some k) := by
  unfold get_current_kecamatans
  rw [mem_dedupKeepFirst, List.mem_filterMap]
  constructor
  · rintro ⟨d, hd, hfn⟩
    by_cases hp : docGet d "page" = some (.int progress.current_page)
    · rw [if_pos hp] at hfn
      rcases hkec : docGet d "kecamatan" with _ | v
      · rw [hkec] at hfn; cases hfn
      · rw [hkec] at hfn
        by_cases hv : v = Value.null
        · subst hv; simp at hfn
        · have hvk : v = k := by simpa [hv] using hfn
          subst hvk
          exact ⟨hv, d, hd, hp, hkec⟩
    · rw [if_neg hp] at hfn; cases hfn
  · rintro ⟨hknull, d, hd, hp, hkec⟩
    exact ⟨d, hd, by simp [hp, hkec, hknull]⟩

/-! ## C2, C3, C5: the cleaning stage's failure behaviour -/

/-- Shared helper: on any failing page run (`process_current_page` returns
`False`), the progress document, the raw listings, the raw facilities and the
cleaned facilities are exactly as before; the cleaned-listings collection is
the old one possibly extended (the extension is non-empty exactly when the
failure struck after the listings insert). -/
theorem process_false_state (db : CleanDB) (progress : Progress) :
    (process_current_page db progress).1 = false →
    ((process_current_page db progress).2.progress_store = db.progress_store ∧
     (process_current_page db progress).2.raw_listings = db.raw_listings ∧
     (process_current_page db progress).2.facilities = db.facilities ∧
     (process_current_page db progress).2.cleaned_facilities = db.cleaned_facilities ∧
     ∃ extra, (process_current_page db progress).2.cleaned_listings =
       db.cleaned_listings ++ extra) := by
  simp only [process_current_page]
  split
  · exact fun _ => ⟨rfl, rfl, rfl, rfl, [], by simp⟩
  · split
    · exact fun _ => ⟨rfl, rfl, rfl, rfl, [], by simp⟩
    · split
      · split
        · intro h; simp at h
        · split
          · exact fun _ => ⟨rfl, rfl, rfl, rfl, [], by simp⟩
          · intro h; simp at h
      · split
        · intro h; simp at h
        · split
          · exact fun _ => ⟨rfl, rfl, rfl, rfl, _, rfl⟩
          · intro h; simp at h

/-- C2: all-or-nothing page commit for the progress record.  Whenever the
cleaning job fails for the current page (it returns `False`: no raw listings,
a listings schema failure, or a facilities schema failure), the stored
progress document — `current_page` and every region's cursor — is exactly as
before the run, so the identical page is retried on the next invocation. -/
theorem c2_progress_unchanged_on_failure (db : CleanDB) (progress : Progress)
    (h : (process_current_page db progress).1 = false) :
    (process_current_page db progress).2.progress_store = db.progress_store :=
  (process_false_state db progress h).1

/-- Witness for `c2_progress_unchanged_on_failure` (C2): a database with no
raw listings for the current page makes the run fail and leaves the stored
progress untouched. -/
theorem c2_progress_unchanged_on_failure_witness :
    (process_current_page ⟨[], [], [], [], some ⟨1, [("aceh", 1)]⟩⟩ ⟨1, [("aceh", 1)]⟩).1
        = false ∧
    (process_current_page ⟨[], [], [], [], some ⟨1, [("aceh", 1)]⟩⟩ ⟨1, [("aceh", 1)]⟩).2.progress_store
        = (CleanDB.mk [] [] [] [] (some ⟨1, [("aceh", 1)]⟩)).progress_store :=
  ⟨by decide,
   c2_progress_unchanged_on_failure ⟨[], [], [], [], some ⟨1, [("aceh", 1)]⟩⟩
     ⟨1, [("aceh", 1)]⟩ (by decide)⟩

/-- C3 counterexample.  The claim says a page-level failure leaves every
durable collection exactly as before the page began.  On `c3DB` the run fails
(facilities schema error), yet the cleaned-listings collection has grown: the
cleaned listings inserted before the failing facilities step survive. -/
theorem c3_counterexample_partial_write :
    (process_current_page c3DB ⟨1, [("aceh", 1)]⟩).1 = false ∧
    (process_current_page c3DB ⟨1, [("aceh", 1)]⟩).2.cleaned_listings ≠
      c3DB.cleaned_listings := by decide

/-- With all three writes reachable, the fallible model coincides with
`process_current_page`. -/
theorem process_current_page_w_allOk (db : CleanDB) (progress : Progress) :
    process_current_page_w ⟨true, true, true⟩ db progress =
      process_current_page db progress := by
  simp only [process_current_page_w, process_current_page]
  repeat' split
  all_goals first | rfl | simp_all

/-- C3 amended: on a failing page run, the progress record, the raw listings
and the raw facility records are exactly as before the page began, but every
write that succeeded earlier in the run survives the failure: the
cleaned-listings collection may have been extended (listings inserted before
a later failure, e.g. a facilities schema error), and the cleaned-facilities
collection may likewise have been extended when the progress write fails
after the facilities insert succeeded — so a retry can re-insert both kinds
of records.  Stated over the fallible-writes model, whose failure modes are
absorbed by the source's catch-all (data_cleaning.py:207-209). -/
theorem c3_failure_atomicity_amended (w : CleanWorld) (db : CleanDB)
    (progress : Progress)
    (h : (process_current_page_w w db progress).1 = false) :
    (process_current_page_w w db progress).2.progress_store = db.progress_store ∧
    (process_current_page_w w db progress).2.raw_listings = db.raw_listings ∧
    (process_current_page_w w db progress).2.facilities = db.facilities ∧
    (∃ extraL, (process_current_page_w w db progress).2.cleaned_listings =
      db.cleaned_listings ++ extraL) ∧
    (∃ extraF, (process_current_page_w w db progress).2.cleaned_facilities =
      db.cleaned_facilities ++ extraF) := by
  revert h
  simp only [process_current_page_w]
  repeat' split
  all_goals intro h
  all_goals
    first
      | exact Bool.noConfusion h
      | refine ⟨rfl, rfl, rfl, ?_, ?_⟩ <;>
          first
            | exact ⟨[], (List.append_nil _).symm⟩
            | exact ⟨_, rfl⟩

/-- Witness for `c3_failure_atomicity_amended` (C3) at a run on `c3DB2` in
which both cleaning steps and both inserts succeed but the progress write is
unreachable: the run fails, the stored progress is untouched, and both
cleaned collections have genuinely grown (the first two conjuncts show the
facilities partial write really occurs). -/
theorem c3_failure_atomicity_amended_witness :
    (process_current_page_w ⟨true, true, false⟩ c3DB2 ⟨1, [("aceh", 1)]⟩).1 = false ∧
    (process_current_page_w ⟨true, true, false⟩ c3DB2 ⟨1, [("aceh", 1)]⟩).2.cleaned_facilities ≠
      c3DB2.cleaned_facilities ∧
    ((process_current_page_w ⟨true, true, false⟩ c3DB2 ⟨1, [("aceh", 1)]⟩).2.progress_store =
        c3DB2.progress_store ∧
     (process_current_page_w ⟨true, true, false⟩ c3DB2 ⟨1, [("aceh", 1)]⟩).2.raw_listings =
        c3DB2.raw_listings ∧
     (process_current_page_w ⟨true, true, false⟩ c3DB2 ⟨1, [("aceh", 1)]⟩).2.facilities =
        c3DB2.facilities ∧
     (∃ extraL, (process_current_page_w ⟨true, true, false⟩ c3DB2 ⟨1, [("aceh", 1)]⟩).2.cleaned_listings =
        c3DB2.cleaned_listings ++ extraL) ∧
     (∃ extraF, (process_current_page_w ⟨true, true, false⟩ c3DB2 ⟨1, [("aceh", 1)]⟩).2.cleaned_facilities =
        c3DB2.cleaned_facilities ++ extraF)) :=
  ⟨by decide, by decide,
   c3_failure_atomicity_amended ⟨true, true, false⟩ c3DB2 ⟨1, [("aceh", 1)]⟩ (by decide)⟩

/-- C5: schema enforcement.  A listings batch or a facilities batch missing
any one required column fails with `SchemaError`; a listings schema failure
rejects the page wholesale (the state is exactly the input state, zero output
records); and any failing run writes zero cleaned-facilities records. -/
theorem c5_schema_enforcement :
    (∀ df, (∃ c ∈ rumah123RequiredColumns, ¬ hasCol df c) →
      clean_rumah123_data df = .error .schemaError) ∧
    (∀ df, (∃ c ∈ osmRequiredColumns, ¬ hasCol df c) →
      clean_osm_facilities_data df = .error .schemaError) ∧
    (∀ (db : CleanDB) (progress : Progress) (e : CleanError),
      clean_rumah123_data (dataFrameOfDocs (db.raw_listings.filter
        (fun d => docGet d "page" = some (.int progress.current_page)))) = .error e →
      process_current_page db progress = (false, db)) ∧
    (∀ (db : CleanDB) (progress : Progress),
      (process_current_page db progress).1 = false →
      (process_current_page db progress).2.cleaned_facilities = db.cleaned_facilities) := by
  refine ⟨?_, ?_, ?_, ?_⟩
  · intro df hmiss
    unfold clean_rumah123_data
    rw [if_neg]
    intro hall
    rcases hmiss with ⟨c, hc, hnc⟩
    exact hnc (by simpa using (List.all_eq_true.mp hall) c hc)
  · intro df hmiss
    unfold clean_osm_facilities_data
    rw [if_neg]
    intro hall
    rcases hmiss with ⟨c, hc, hnc⟩
    exact hnc (by simpa using (List.all_eq_true.mp hall) c hc)
  · intro db progress e herr
    simp only [process_current_page]
    split
    · rfl
    · split
      · rfl
      · next df heq => rw [herr] at heq; cases heq
  · intro db progress h
    exact (process_false_state db progress h).2.2.2.1

/-- Witness for `c5_schema_enforcement` (C5): the empty batch is missing
every required column, so both cleaners reject it, and a database whose only
current-page raw listing misses the required columns fails wholesale with the
state unchanged. -/
theorem c5_schema_enforcement_witness :
    clean_rumah123_data [] = .error .schemaError ∧
    clean_osm_facilities_data [] = .error .schemaError ∧
    process_current_page ⟨[[("page", Value.int 1)]], [], [], [], none⟩ ⟨1, []⟩ =
      (false, ⟨[[("page", Value.int 1)]], [], [], [], none⟩) ∧
    (process_current_page ⟨[[("page", Value.int 1)]], [], [], [], none⟩ ⟨1, []⟩).2.cleaned_facilities =
      (CleanDB.mk [[("page", Value.int 1)]] [] [] [] none).cleaned_facilities := by
  refine ⟨c5_schema_enforcement.1 [] ⟨"judul_iklan", by decide, by decide⟩,
    c5_schema_enforcement.2.1 [] ⟨"kecamatan", by decide, by decide⟩,
    c5_schema_enforcement.2.2.1 _ _ .schemaError (by rfl),
    c5_schema_enforcement.2.2.2 _ _ (by decide)⟩

/-! ## C9 and C7: the scraper loop -/

/-- Shared helper: a province on the current page whose search yields no new
candidates is left untouched by its loop step (no fetches, no writes, no
progress change). -/
theorem province_step_no_houses (w : ScrapeWorld) (existing : List String)
    (current : Int) (db : ScrapeDB) (pr : String × Int)
    (hcur : pr.2 = current)
    (hempty : scrape_search_page (w.searchPage (searchUrl pr.1 pr.2)) existing = []) :
    province_step w existing current db pr = db := by
  simp only [province_step]
  rw [if_neg (by simp [hcur])]
  rw [hempty]
  simp

/-- C9: zero-candidate pages are success.  A region at the current page whose
index page yields zero new (non-duplicate) candidates is a non-error
completion: its step changes nothing, the loop simply proceeds to the
remaining regions, and the stored cursor for the region (which equalled the
current page) still equals the current page — the region stays caught up at
this page. -/
theorem c9_zero_candidates_success (w : ScrapeWorld) (existing : List String)
    (current : Int) (db : ScrapeDB) (pr : String) (page : Int)
    (rest : List (String × Int)) (p : Progress)
    (hpage : page = current)
    (hempty : scrape_search_page (w.searchPage (searchUrl pr page)) existing = []) :
    province_step w existing current db (pr, page) = db ∧
    runProvinces w existing current db ((pr, page) :: rest) =
      runProvinces w existing current db rest ∧
    (db.progress_store = some p → p.cursorOf pr = some current →
      ∃ q, (province_step w existing current db (pr, page)).progress_store = some q ∧
        q.cursorOf pr = some current) := by
  have hstep : province_step w existing current db (pr, page) = db :=
    province_step_no_houses w existing current db (pr, page) hpage hempty
  refine ⟨hstep, ?_, ?_⟩
  · simp only [runProvinces]
    rw [hstep]
  · intro hp hcur
    exact ⟨p, by rw [hstep, hp], hcur⟩

/-- Witness for `c9_zero_candidates_success` (C9) at a concrete one-province
state. -/
theorem c9_zero_candidates_success_witness :
    province_step c9World [] 1 ⟨[], some ⟨1, [("aceh", 1)]⟩⟩ ("aceh", 1) =
      (⟨[], some ⟨1, [("aceh", 1)]⟩⟩ : ScrapeDB) ∧
    runProvinces c9World [] 1 ⟨[], some ⟨1, [("aceh", 1)]⟩⟩ [("aceh", 1)] =
      runProvinces c9World [] 1 ⟨[], some ⟨1, [("aceh", 1)]⟩⟩ [] ∧
    ∃ q, (province_step c9World [] 1 ⟨[], some ⟨1, [("aceh", 1)]⟩⟩
        ("aceh", 1)).progress_store = some q ∧ q.cursorOf "aceh" = some 1 := by
  have h := c9_zero_candidates_success c9World [] 1 ⟨[], some ⟨1, [("aceh", 1)]⟩⟩
    "aceh" 1 [] ⟨1, [("aceh", 1)]⟩ rfl rfl
  exact ⟨h.1, h.2.1, h.2.2 rfl (by decide)⟩

/-- C7: idempotence mechanisms.  (1) No candidate whose (stripped) title is
already in the dedup set ever leaves `scrape_search_page` — so no detail
fetch and no insertion happens for it; (2) if every candidate's title is
already in the dedup set the page yields zero candidates; (3) a region whose
page yields zero candidates is left completely untouched (no duplicate
`RawListing` insertion on a re-run over an unchanged source); (4) a region
that already has a stored facility record is skipped entirely: its state —
including the outbound-attempt counter — is unchanged, i.e. zero outbound
queries are issued and no duplicate `RawFacilityRecord` can be written. -/
theorem c7_idempotent_reruns :
    (∀ page existing h, h ∈ scrape_search_page page existing →
      h.judul_iklan ∉ existing) ∧
    (∀ (cards : List Card) existing,
      (∀ c ∈ cards, ∀ t, c.title = some t → pyStrip t ∈ existing) →
      scrape_search_page (.ok cards) existing = []) ∧
    (∀ w existing current db (pr : String × Int), pr.2 = current →
      scrape_search_page (w.searchPage (searchUrl pr.1 pr.2)) existing = [] →
      province_step w existing current db pr = db) ∧
    (∀ oracle (st : List Doc × Nat) k, facility_exists st.1 k = true →
      fetch_step oracle st k = st) := by
  refine ⟨?_, ?_, province_step_no_houses, ?_⟩
  · intro page existing h hmem
    cases page with
    | netError => simp [scrape_search_page] at hmem
    | ok cards =>
        simp only [scrape_search_page] at hmem
        obtain ⟨⟨ct, cl⟩, -, hfn⟩ := List.mem_filterMap.mp hmem
        cases ct with
        | none => cases cl <;> exact Option.noConfusion hfn
        | some t =>
            cases cl with
            | none => exact Option.noConfusion hfn
            | some l =>
                dsimp only at hfn
                by_cases hcond : pyStrip t ≠ "" ∧ pyStrip t ∉ existing
                · rw [if_pos hcond] at hfn
                  cases hfn
                  exact hcond.2
                · rw [if_neg hcond] at hfn
                  exact Option.noConfusion hfn
  · intro cards existing hall
    simp only [scrape_search_page]
    rw [List.filterMap_eq_nil_iff]
    rintro ⟨ct, cl⟩ hc
    cases ct with
    | none => cases cl <;> rfl
    | some t =>
        cases cl with
        | none => rfl
        | some l =>
            have ht := hall _ hc t rfl
            dsimp only
            rw [if_neg]
            rintro ⟨-, habs⟩
            exact habs ht
  · intro oracle st k hex
    simp [fetch_step, hex]

/-- Witness for `c7_idempotent_reruns` (C7): a page whose single candidate
`"T"` is already in the dedup set yields no candidates, its region's step is
a no-op, and a region with an existing facility record is skipped with the
attempt counter unchanged. -/
theorem c7_idempotent_reruns_witness :
    ("T" : String) ∉ ([] : List String) ∧
    scrape_search_page (.ok [⟨some "T", some "/properti/x"⟩]) ["T"] = [] ∧
    province_step c9World ["T"] 1 ⟨[], none⟩ ("bali", 1) = (⟨[], none⟩ : ScrapeDB) ∧
    fetch_step (fun _ => .exn) ([[("kecamatan", Value.str "K")]], 0) (Value.str "K") =
      ([[("kecamatan", Value.str "K")]], 0) := by
  refine ⟨?_, ?_, ?_, ?_⟩
  · exact c7_idempotent_reruns.1 (.ok [⟨some "T", some "/properti/x"⟩]) []
      ⟨"T", "https://www.rumah123.com/properti/x"⟩ (by decide)
  · exact c7_idempotent_reruns.2.1 [⟨some "T", some "/properti/x"⟩] ["T"]
      (by intro c hc t ht; simp at hc; rw [hc] at ht; cases ht; decide)
  · exact c7_idempotent_reruns.2.2.1 c9World ["T"] 1 ⟨[], none⟩ ("bali", 1) rfl rfl
  · exact c7_idempotent_reruns.2.2.2 (fun _ => .exn)
      ([[("kecamatan", Value.str "K")]], 0) (Value.str "K") (by decide)

/-! ## C8: storage failures -/

/-- C8 counterexample.  The claim says a run in which the store is
unreachable at any stage — including loading the dedup set — aborts with
`StorageError`, with no partial writes, and processing never continues past
the failure.  Here the dedup-set read fails, yet the run continues with an
empty dedup set, re-fetches the already-stored listing and inserts a
duplicate: the failure was absorbed and a write happened after it. -/
theorem c8_counterexample_absorbed :
    (scraper_run c8World c8DB).raw_listings ≠ c8DB.raw_listings := by decide

/-- Helper: with the listing store unreachable, a province step changes
nothing. -/
theorem province_step_store_unreachable (w : ScrapeWorld) (existing : List String)
    (current : Int) (db : ScrapeDB) (pr : String × Int)
    (hw : w.storeOk = false) :
    province_step w existing current db pr = db := by
  simp only [province_step]
  split
  · rfl
  · split
    · rfl
    · split
      · rfl
      · rw [hw]
        simp

/-- Helper: with the progress write unreachable, a province step never
touches the stored progress document. -/
theorem province_step_progress_unreachable (w : ScrapeWorld) (existing : List String)
    (current : Int) (db : ScrapeDB) (pr : String × Int)
    (hw : w.progressWriteOk = false) :
    (province_step w existing current db pr).progress_store = db.progress_store := by
  simp only [province_step]
  split
  · rfl
  · split
    · rfl
    · split
      · rfl
      · split
        · rw [hw]
          simp
        · rfl

/-- C8 amended: storage failures are absorbed, never fatal. (1) When the
dedup-set read fails the scraper continues with an empty dedup set (so it can
re-insert already-stored listings, as `c8_counterexample_absorbed` shows);
(2) when the listing store is unreachable every insert fails, so no listing
and no progress is written — but the loop still completes normally over all
provinces; (3) when only the progress write fails, the progress document is
left unchanged while listings stay stored, and the loop completes. -/
theorem c8_storage_failures_absorbed :
    (∀ titles, fetch_existing_titles titles false = []) ∧
    (∀ w existing current (db : ScrapeDB) prs, w.storeOk = false →
      runProvinces w existing current db prs = db) ∧
    (∀ w existing current (db : ScrapeDB) prs, w.progressWriteOk = false →
      (runProvinces w existing current db prs).progress_store = db.progress_store) := by
  refine ⟨fun titles => rfl, ?_, ?_⟩
  · intro w existing current db prs hw
    induction prs generalizing db with
    | nil => rfl
    | cons pr rest ih =>
        simp only [runProvinces]
        rw [province_step_store_unreachable w existing current db pr hw, ih]
  · intro w existing current db prs hw
    induction prs generalizing db with
    | nil => rfl
    | cons pr rest ih =>
        simp only [runProvinces]
        rw [ih, province_step_progress_unreachable w existing current db pr hw]

/-- Witness for `c8_storage_failures_absorbed` (C8) at concrete inputs. -/
theorem c8_storage_failures_absorbed_witness :
    fetch_existing_titles ["T", "T"] false = [] ∧
    runProvinces c8OffWorld [] 1 c8DB [("aceh", 1)] = c8DB ∧
    (runProvinces c8OffWorld [] 1 c8DB [("aceh", 1)]).progress_store =
      c8DB.progress_store :=
  ⟨c8_storage_failures_absorbed.1 ["T", "T"],
   c8_storage_failures_absorbed.2.1 c8OffWorld [] 1 c8DB [("aceh", 1)] rfl,
   c8_storage_failures_absorbed.2.2 c8OffWorld [] 1 c8DB [("aceh", 1)] rfl⟩

/-! ## C6: the enrichment retry budget -/

/-- C6 counterexample.  The claim says the client allows a bounded retry
count *per filter expression*.  Under `c6Oracle` every filter expression
succeeds within its own budget of 3 (two failures, then a success), so the
per-filter-budget client of the spec completes the region; the implemented
client shares one counter across all filter expressions of the region and
fails: the first filter's two failures leave `retry_count = 2`, the second
filter's first failure exhausts the budget, and the whole region returns
`None`. -/
theorem c6_counterexample_shared_budget :
    get_facilities_count c6Oracle 3 = none ∧
    get_facilities_count_perFilterBudget c6Oracle 3 =
      some [("jumlah_fasilitas_pendidikan", 7), ("jumlah_fasilitas_kesehatan", 7),
            ("jumlah_fasilitas_perbelanjaan", 14), ("jumlah_fasilitas_transportasi", 21),
            ("jumlah_fasilitas_rekreasi", 14)] := by decide

/-- C6 amended: the retry budget is a single counter shared across all
filter expressions of a region, initialised once and never reset.  (1) Once
the counter has reached the budget, the next filter expression makes no
attempt at all (the attempt index does not move) and the whole region fails;
(2) a 429 response makes the client wait the server-supplied `Retry-After`
duration before the retry; (3) any other retryable failure waits the fixed
5-second delay; (4) when a region's fetch fails, no facility record —
partial or complete — is stored for it. -/
theorem c6_retry_budget_amended :
    (∀ (oracle : Nat → ApiResponse) max_retries f fs attempt rc, max_retries ≤ rc →
      runFilters oracle max_retries (f :: fs) attempt rc = (none, attempt)) ∧
    (∀ (oracle : Nat → ApiResponse) fuel attempt rc w,
      oracle attempt = .rateLimited (some w) →
      (whileAttempt oracle (fuel + 1) attempt rc).sleeps.take 2 = [2, w]) ∧
    (∀ (oracle : Nat → ApiResponse) fuel attempt rc code,
      oracle attempt = .serverError code →
      (whileAttempt oracle (fuel + 1) attempt rc).sleeps.take 2 = [2, 5]) ∧
    (∀ (oracle : Nat → ApiResponse) (st : List Doc × Nat) k,
      (get_facilities_count_at oracle 3 st.2).1 = none →
      (fetch_step oracle st k).1 = st.1) := by
  refine ⟨?_, ?_, ?_, ?_⟩
  · intro oracle max_retries f fs attempt rc hle
    have h0 : max_retries - rc = 0 := Nat.sub_eq_zero_of_le hle
    simp only [runFilters, h0, whileAttempt]
  · intro oracle fuel attempt rc w hw
    simp only [whileAttempt, hw]
    rfl
  · intro oracle fuel attempt rc code hw
    simp only [whileAttempt, hw]
    rfl
  · intro oracle st k hnone
    by_cases hex : facility_exists st.1 k
    · simp [fetch_step, hex]
    · simp only [fetch_step, Bool.not_eq_true] at hex ⊢
      rw [if_neg (by simp [hex])]
      rcases hga : get_facilities_count_at oracle 3 st.2 with ⟨res, a⟩
      rw [hga] at hnone
      simp only at hnone
      subst hnone
      rfl

/-- Witness for `c6_retry_budget_amended` (C6) at concrete inputs: an
exhausted counter fails the next filter without an attempt; a 429 with
`Retry-After: 7` waits 2 s (rate-limit pacing) then 7 s; a 500 waits 2 s then
5 s; and an always-failing oracle stores nothing for an unseen region. -/
theorem c6_retry_budget_amended_witness :
    runFilters (fun _ => ApiResponse.exn) 3 ["f"] 0 3 = (none, 0) ∧
    (whileAttempt (fun _ => ApiResponse.rateLimited (some 7)) 1 0 0).sleeps.take 2 =
      [2, 7] ∧
    (whileAttempt (fun _ => ApiResponse.serverError 500) 1 0 0).sleeps.take 2 =
      [2, 5] ∧
    (fetch_step (fun _ => ApiResponse.exn) ([], 0) (Value.str "K")).1 = [] :=
  ⟨c6_retry_budget_amended.1 (fun _ => ApiResponse.exn) 3 "f" [] 0 3 (by decide),
   c6_retry_budget_amended.2.1 (fun _ => ApiResponse.rateLimited (some 7)) 0 0 0 7 rfl,
   c6_retry_budget_amended.2.2.1 (fun _ => ApiResponse.serverError 500) 0 0 0 500 rfl,
   c6_retry_budget_amended.2.2.2 (fun _ => ApiResponse.exn) ([], 0) (Value.str "K")
     (by decide)⟩

/-! ## C4: numeric coercion of the cleaning stage -/

/-- C4 counterexample.  The claim says that for every value fed to a
price/int field, the input `"1,200,000"` yields the integer `1200000` with
thousands separators stripped.  The price field (`harga`) is coerced by the
cleaning stage's `clean_price`, which calls `int(price)` without stripping
separators: on the string `"1,200,000"` the `int` call raises `ValueError`
and the catch-all returns the absent value, not `1200000`. -/
theorem c4_counterexample_price_field :
    clean_price (Value.str "1,200,000") = none ∧
    clean_price (Value.str "1,200,000") ≠ some 1200000 := by decide

/-- C4 amended.  For int fields coerced by `clean_numeric`, `"1,200,000"`
parses to `1200000` with separators stripped, and empty string / `None` /
NaN / unparseable input give the absent value.  For the price field,
`clean_price` gives the absent value on empty / `None` / NaN / unparseable
input and on any string still containing thousands separators (it strips
nothing); a separator-free integer string or an already-numeric price still
coerces.  All coercions are total functions into an optional value — they
never raise (the embedding encodes every exception path as `none`). -/
theorem c4_numeric_coercion_amended :
    clean_numeric_int (Value.str "1,200,000") = some 1200000 ∧
    clean_numeric_int (Value.str "") = none ∧
    clean_numeric_int Value.null = none ∧
    clean_numeric_int Value.nan = none ∧
    clean_numeric_int (Value.str "abc") = none ∧
    clean_numeric_float (Value.str "1,200,000") = some ⟨1200000, 0⟩ ∧
    clean_price (Value.str "1,200,000") = none ∧
    clean_price (Value.str "1200000") = some 1200000 ∧
    clean_price (Value.int 1200000) = some 1200000 ∧
    clean_price (Value.float ⟨12000005, 1⟩) = some 1200000 ∧
    clean_price (Value.str "") = none ∧
    clean_price Value.null = none ∧
    clean_price Value.nan = none ∧
    clean_price (Value.str "abc") = none := by decide

end Housing
